import Mathlib

/-!
Verification of the client-side log-stream controller
(`python/ray/util/client/logsclient.py`), shallowly embedded in Lean.

Integer log levels are modelled as `Int` (Python integers), messages as
`String`.  The worker loop, the sink router, the RPC-error classifier and
the lifecycle operations are translated directly from the source; effects
(writes to the structured logger and to stdout/stderr) are reified as
values so that theorems can speak about exactly which sink receives what.
-/

/-- An inbound server-pushed log record (`record.level`, `record.msg`). -/
structure LogRecord where
  level : Int
  msg : String
deriving DecidableEq, Repr

/-- Which raw standard stream a `stdstream` write goes to. -/
inductive OutStream where
  | stdout
  | stderr
deriving DecidableEq, Repr

/-- A raw write performed by `stdstream`: the chosen stream and the exact
text written (`print(msg, file=print_file, end="")` writes `msg` itself,
with no newline appended). -/
structure StdWrite where
  stream : OutStream
  content : String
deriving DecidableEq, Repr

/-- `LogstreamClient.stdstream(level, msg)`:
`print_file = sys.stderr if level == -2 else sys.stdout` followed by
`print(msg, file=print_file, end="")`. -/
def stdstream (level : Int) (msg : String) : StdWrite :=
  ⟨if level = -2 then OutStream.stderr else OutStream.stdout, msg⟩

/-- One sink invocation made by the worker loop: either a structured-logger
call `logger.log(level=level, msg=msg)` or a raw standard-stream write. -/
inductive SinkAction where
  | logCall (level : Int) (msg : String)
  | std (w : StdWrite)
deriving DecidableEq, Repr

/-- The dispatch of one inbound record by the worker loop body:
`if record.level < 0: self.stdstream(...)` then always `self.log(...)`. -/
def dispatchRecord (r : LogRecord) : List SinkAction :=
  (if r.level < 0 then [SinkAction.std (stdstream r.level r.msg)] else [])
    ++ [SinkAction.logCall r.level r.msg]

/-- gRPC status codes as discriminated by `_process_rpc_error`; every code
other than the three tested ones is `other` with its name. -/
inductive StatusCode where
  | cancelled
  | unavailable
  | resourceExhausted
  | other (name : String)
deriving DecidableEq, Repr

/-- A `grpc.RpcError`: its status code (`e.code()`) and the detail text that
`f"...: {e}"` interpolates. -/
structure RpcError where
  code : StatusCode
  detail : String
deriving DecidableEq, Repr

/-- An emission on the module logger: `logger.info(...)` or the error-level
emission produced by `logger.exception(...)`. -/
inductive LoggerEmit where
  | info (msg : String)
  | error (msg : String)
deriving DecidableEq, Repr

/-- `LogstreamClient._process_rpc_error(e)`, translated branch by branch. -/
def processRpcError (e : RpcError) : List LoggerEmit :=
  match e.code with
  | StatusCode.cancelled => [LoggerEmit.info "Cancelling logs channel"]
  | StatusCode.unavailable => [LoggerEmit.info "Server disconnected from logs channel"]
  | StatusCode.resourceExhausted => [LoggerEmit.info "Server disconnected from logs channel"]
  | StatusCode.other _ =>
      [LoggerEmit.error ("Got Error from logger channel -- shutting down: " ++ e.detail)]

/-- An outbound control message, `ray_client_pb2.LogSettingsRequest`: the
two fields the controller sets (`enabled`, `loglevel`; an unset proto int
field reads as 0). -/
structure ControlRequest where
  enabled : Bool
  loglevel : Int
deriving DecidableEq, Repr

/-- The sequence of messages the outbound iterator
`iter(self.request_queue.get, None)` yields from the dequeued items: it
stops at the first `None` (the sentinel) and never yields it. -/
def outboundSeq : List (Option ControlRequest) → List ControlRequest
  | [] => []
  | none :: _ => []
  | some r :: rest => r :: outboundSeq rest

/-- The controller state touched by the lifecycle operations: the module
logger's configured level (mutated by `logger.setLevel`) and the contents
of `request_queue` in FIFO order (`none` is the sentinel). -/
structure ControllerState where
  loggerLevel : Int
  queue : List (Option ControlRequest)
deriving DecidableEq, Repr

/-- `LogstreamClient.set_logstream_level(level)`: `logger.setLevel(level)`,
then enqueue a request with `enabled = True`, `loglevel = level`. -/
def setLogstreamLevel (s : ControllerState) (level : Int) : ControllerState :=
  ⟨level, s.queue ++ [some ⟨true, level⟩]⟩

/-- `LogstreamClient.disable_logs()`: enqueue a request with
`enabled = False` (loglevel left at the proto default 0). -/
def disableLogs (s : ControllerState) : ControllerState :=
  ⟨s.loggerLevel, s.queue ++ [some ⟨false, 0⟩]⟩

/-- The enqueue half of `LogstreamClient.close()`:
`self.request_queue.put(None)` appends the sentinel. -/
def closeEnqueue (s : ControllerState) : ControllerState :=
  ⟨s.loggerLevel, s.queue ++ [none]⟩

/-- A single-thread lifecycle call, for stating FIFO ordering. -/
inductive Call where
  | setLevel (level : Int)
  | disable
deriving DecidableEq, Repr

/-- The ControlRequest a call enqueues. -/
def requestOf : Call → ControlRequest
  | Call.setLevel l => ⟨true, l⟩
  | Call.disable => ⟨false, 0⟩

/-- Apply one lifecycle call to the controller state. -/
def applyCall (s : ControllerState) : Call → ControllerState
  | Call.setLevel l => setLogstreamLevel s l
  | Call.disable => disableLogs s

/-- Apply a sequence of lifecycle calls from a single thread, in order. -/
def runCalls : ControllerState → List Call → ControllerState
  | s, [] => s
  | s, c :: cs => runCalls (applyCall s c) cs

/-- The sequence of values successive `request_queue.get()` calls return
once the queue holds `q`: position `i` of `q`; past the end the consumer
would block, modelled as `none` never being read there (the generator stops
at the first real sentinel). -/
def supplyOf (q : List (Option ControlRequest)) : Nat → Option ControlRequest :=
  fun i => q.getD i none

/-- Fuel-bounded run of the outbound generator `iter(queue.get, None)`:
`some msgs` means the generator halted (closed the outbound half) within
the given number of `get()` calls, transmitting `msgs`; `none` means it was
still blocked when the fuel ran out. -/
def genOutbound : Nat → (Nat → Option ControlRequest) → Option (List ControlRequest)
  | 0, _ => none
  | fuel + 1, supply =>
    match supply 0 with
    | none => some []
    | some r => (genOutbound fuel (fun i => supply (i + 1))).map (fun l => r :: l)

/-- An exception inside the worker: a `grpc.RpcError` or any other Python
exception (identified by name), e.g. one raised by an overridden sink. -/
inductive Exn where
  | rpc (e : RpcError)
  | otherExn (name : String)
deriving DecidableEq, Repr

/-- Dispatch of one record with possibly-failing sinks (`log` and
`stdstream` are overridable methods): `stdstream` runs first when the level
is negative, then `log`; a raised exception aborts the dispatch. -/
def dispatchWith (logSink stdSink : Int → String → Except Exn Unit)
    (r : LogRecord) : Except Exn Unit :=
  match (if r.level < 0 then stdSink r.level r.msg else Except.ok ()) with
  | Except.error ex => Except.error ex
  | Except.ok _ => logSink r.level r.msg

/-- The worker's `for record in log_stream` body over the records the
stream yields; a sink exception aborts the loop. -/
def loopWith (logSink stdSink : Int → String → Except Exn Unit) :
    List LogRecord → Except Exn Unit
  | [] => Except.ok ()
  | r :: rest =>
    match dispatchWith logSink stdSink r with
    | Except.error ex => Except.error ex
    | Except.ok _ => loopWith logSink stdSink rest

/-- The outcome of the `try` block of `_log_main`: run the loop; if it
finishes and the stream terminated with an error, that error is raised at
the iteration point. -/
def bodyResult (logSink stdSink : Int → String → Except Exn Unit)
    (inbound : List LogRecord) (streamEnd : Option Exn) : Except Exn Unit :=
  match loopWith logSink stdSink inbound with
  | Except.error ex => Except.error ex
  | Except.ok _ =>
    match streamEnd with
    | some ex => Except.error ex
    | none => Except.ok ()

/-- `_log_main`'s exception boundary: `except grpc.RpcError as e:
self._process_rpc_error(e)` catches exactly the `rpc` exceptions and
classifies them; any other exception escapes the worker function. -/
def logMainWith (logSink stdSink : Int → String → Except Exn Unit)
    (inbound : List LogRecord) (streamEnd : Option Exn) :
    Except Exn (List LoggerEmit) :=
  match bodyResult logSink stdSink inbound streamEnd with
  | Except.ok _ => Except.ok []
  | Except.error (Exn.rpc e) => Except.ok (processRpcError e)
  | Except.error ex => Except.error ex

/-- A sink that never raises (the behavior of the default `logger.log` /
`print` sinks in the model). -/
def okSink : Int → String → Except Exn Unit := fun _ _ => Except.ok ()

/-! ## Helper lemmas -/

/-- The outbound iterator yields exactly the items up to the first sentinel
and nothing after it. -/
theorem outbound_take (reqs : List ControlRequest)
    (rest : List (Option ControlRequest)) :
    outboundSeq (reqs.map some ++ none :: rest) = reqs := by
  induction reqs with
  | nil => rfl
  | cons r t ih => simpa [outboundSeq] using ih

/-- The queue after a single-thread call sequence: the requests of the
calls, in call order, appended to the prior contents. -/
theorem runCalls_queue (calls : List Call) (s : ControllerState) :
    (runCalls s calls).queue = s.queue ++ (calls.map requestOf).map some := by
  induction calls generalizing s with
  | nil => simp [runCalls]
  | cons c t ih =>
    cases c with
    | setLevel l =>
      simp [runCalls, applyCall, ih, setLogstreamLevel, requestOf]
    | disable =>
      simp [runCalls, applyCall, ih, disableLogs, requestOf]

/-- Shifting the supply of a nonempty queue drops its head. -/
theorem supplyOf_shift (a : Option ControlRequest)
    (t : List (Option ControlRequest)) :
    (fun i => supplyOf (a :: t) (i + 1)) = supplyOf t := by
  funext i
  simp [supplyOf]

/-- With the sentinel present after the pending requests, the outbound
generator halts within `|reqs| + 1` reads and transmits exactly `reqs`. -/
theorem genOutbound_halts (reqs : List ControlRequest)
    (rest : List (Option ControlRequest)) :
    genOutbound (reqs.length + 1) (supplyOf (reqs.map some ++ none :: rest))
      = some reqs := by
  induction reqs with
  | nil => simp [genOutbound, supplyOf]
  | cons r t ih =>
    simp only [List.map_cons, List.cons_append, List.length_cons]
    rw [genOutbound]
    simp only [supplyOf_shift]
    simp [supplyOf, ih]

/-- A loop failure is a failure of one of the two sinks. -/
theorem loopWith_error_source (logSink stdSink : Int → String → Except Exn Unit)
    (inbound : List LogRecord) (ex : Exn)
    (h : loopWith logSink stdSink inbound = Except.error ex) :
    (∃ l m, logSink l m = Except.error ex) ∨
    (∃ l m, stdSink l m = Except.error ex) := by
  induction inbound with
  | nil => simp [loopWith] at h
  | cons r t ih =>
    rw [loopWith] at h
    rcases hd : dispatchWith logSink stdSink r with ex' | u
    · rw [hd] at h
      cases h
      rw [dispatchWith] at hd
      rcases hs : (if r.level < 0 then stdSink r.level r.msg else Except.ok ()) with ex'' | u'
      · rw [hs] at hd
        cases hd
        by_cases hneg : r.level < 0
        · rw [if_pos hneg] at hs
          exact Or.inr ⟨r.level, r.msg, hs⟩
        · rw [if_neg hneg] at hs
          cases hs
      · rw [hs] at hd
        exact Or.inl ⟨r.level, r.msg, hd⟩
    · rw [hd] at h
      exact ih h

/-- With never-failing sinks the loop completes. -/
theorem loopWith_ok (inbound : List LogRecord) :
    loopWith okSink okSink inbound = Except.ok () := by
  induction inbound with
  | nil => rfl
  | cons r t ih => simp [loopWith, dispatchWith, okSink, ih]

/-! ## Claim theorems -/

/-- C1: every dispatched record reaches the structured logger via
`log(level, msg)` with level and message unchanged, whatever the sign of
the level; a negative-level record is additionally echoed through
`stdstream` with the same level and message (dual delivery), while a
non-negative-level record goes only to the structured logger. -/
theorem dispatch_dual_delivery (r : LogRecord) :
    SinkAction.logCall r.level r.msg ∈ dispatchRecord r ∧
    (r.level < 0 →
      dispatchRecord r =
        [SinkAction.std (stdstream r.level r.msg),
         SinkAction.logCall r.level r.msg]) ∧
    (0 ≤ r.level → dispatchRecord r = [SinkAction.logCall r.level r.msg]) := by
  refine ⟨?_, ?_, ?_⟩
  · by_cases h : r.level < 0 <;> simp [dispatchRecord, h]
  · intro h
    simp [dispatchRecord, h]
  · intro h
    simp [dispatchRecord, not_lt.mpr h]

/-- Witness for C1 at level -1 (dual delivery) and level 20 (structured
logger only). -/
theorem dispatch_dual_delivery_witness :
    dispatchRecord ⟨-1, "m"⟩ =
      [SinkAction.std (stdstream (-1) "m"), SinkAction.logCall (-1) "m"] ∧
    dispatchRecord ⟨20, "x"⟩ = [SinkAction.logCall 20 "x"] :=
  ⟨(dispatch_dual_delivery ⟨-1, "m"⟩).2.1 (by decide),
   (dispatch_dual_delivery ⟨20, "x"⟩).2.2 (by decide)⟩

/-- C2: `stdstream(level, msg)` writes the message verbatim with no newline
appended (the written text is exactly `msg`); level -2 is routed to the
standard error stream and every other level to standard output. -/
theorem stdstream_routing (level : Int) (msg : String) :
    (stdstream level msg).content = msg ∧
    (stdstream (-2) msg).stream = OutStream.stderr ∧
    (level ≠ -2 → (stdstream level msg).stream = OutStream.stdout) := by
  refine ⟨rfl, by simp [stdstream], ?_⟩
  intro h
  simp [stdstream, h]

/-- Witness for C2 at levels -2 and -1 with message "m". -/
theorem stdstream_routing_witness :
    (stdstream (-1) "m").content = "m" ∧
    (stdstream (-2) "m").stream = OutStream.stderr ∧
    (stdstream (-1) "m").stream = OutStream.stdout :=
  ⟨(stdstream_routing (-1) "m").1,
   (stdstream_routing (-1) "m").2.1,
   (stdstream_routing (-1) "m").2.2 (by decide)⟩

/-- C3: the failure classifier emits exactly one logger line per stream
failure: an informational one for `cancelled`, an informational one for
`unavailable` / `resource-exhausted` (no retry is modelled anywhere), and an
error-level one carrying the error detail for every other status; and the
worker, run with its default (non-raising) sinks, absorbs the RPC error and
returns normally rather than propagating it. -/
theorem rpc_error_classification (e : RpcError) (inbound : List LogRecord) :
    (processRpcError e).length = 1 ∧
    (e.code = StatusCode.cancelled →
      processRpcError e = [LoggerEmit.info "Cancelling logs channel"]) ∧
    (e.code = StatusCode.unavailable ∨ e.code = StatusCode.resourceExhausted →
      processRpcError e = [LoggerEmit.info "Server disconnected from logs channel"]) ∧
    (∀ n, e.code = StatusCode.other n →
      processRpcError e =
        [LoggerEmit.error
          ("Got Error from logger channel -- shutting down: " ++ e.detail)]) ∧
    logMainWith okSink okSink inbound (some (Exn.rpc e)) =
      Except.ok (processRpcError e) := by
  refine ⟨?_, ?_, ?_, ?_, ?_⟩
  · rcases e with ⟨c, d⟩
    cases c <;> simp [processRpcError]
  · intro h
    simp [processRpcError, h]
  · rcases e with ⟨c, d⟩
    rintro (h | h) <;> simp_all [processRpcError]
  · intro n h
    simp [processRpcError, h]
  · simp [logMainWith, bodyResult, loopWith_ok]

/-- Witness for C3: an unmodeled status yields the single error-level line
with the detail, and `cancelled` yields the informational line. -/
theorem rpc_error_classification_witness :
    processRpcError ⟨StatusCode.other "UNKNOWN", "boom"⟩ =
      [LoggerEmit.error
        ("Got Error from logger channel -- shutting down: " ++ "boom")] ∧
    processRpcError ⟨StatusCode.cancelled, ""⟩ =
      [LoggerEmit.info "Cancelling logs channel"] :=
  ⟨(rpc_error_classification ⟨StatusCode.other "UNKNOWN", "boom"⟩ []).2.2.2.1
      "UNKNOWN" rfl,
   (rpc_error_classification ⟨StatusCode.cancelled, ""⟩ []).2.1 rfl⟩

/-- C4: the outbound message sequence is exactly the queue items up to but
not including the first sentinel: items after the sentinel are never read
and the sentinel itself is never transmitted. -/
theorem outbound_stops_at_sentinel (reqs : List ControlRequest)
    (rest : List (Option ControlRequest)) :
    outboundSeq (reqs.map some ++ none :: rest) = reqs :=
  outbound_take reqs rest

/-- C5: for any sequence of `set_logstream_level` / `disable_logs` calls
from a single thread followed by `close()`, the requests appear on the
outbound stream in exactly call order (FIFO end to end). -/
theorem calls_fifo_order (lvl : Int) (calls : List Call) :
    outboundSeq (closeEnqueue (runCalls ⟨lvl, []⟩ calls)).queue =
      calls.map requestOf := by
  have h := runCalls_queue calls ⟨lvl, []⟩
  simp only [closeEnqueue, h]
  simpa using outbound_take (calls.map requestOf) []

/-- C6: every request enqueued before the sentinel that `close()` appends
is transmitted on the outbound stream before closure; none is dropped. -/
theorem close_no_outbound_loss (lvl : Int) (reqs : List ControlRequest) :
    outboundSeq (closeEnqueue ⟨lvl, reqs.map some⟩).queue = reqs := by
  simpa [closeEnqueue] using outbound_take reqs []

/-- C7: `close()` appends the sentinel after all pending requests, and the
worker's outbound generator then halts — within `|reqs| + 1` queue reads it
closes the outbound half, having transmitted exactly the pending requests;
with `reqs = []` this is the empty-queue case, so a blocked worker is woken
by the sentinel alone and no deadlock occurs.  The inbound side is a total
fold over the finite record sequence the server sends before closing, so
the worker function returns and the `join` in `close()` returns with it. -/
theorem close_terminates (lvl : Int) (reqs : List ControlRequest) :
    genOutbound (reqs.length + 1)
        (supplyOf (closeEnqueue ⟨lvl, reqs.map some⟩).queue) = some reqs := by
  simpa [closeEnqueue] using genOutbound_halts reqs []

/-- C8 counterexample: the worker's `except` clause catches only
`grpc.RpcError`, so a non-RPC exception raised by a sink while dispatching
a record escapes the worker function — here a "ValueError" from the
structured-log sink on the record (20, "x") propagates out. -/
theorem worker_exception_escapes_cex :
    logMainWith (fun _ _ => Except.error (Exn.otherExn "ValueError")) okSink
        [⟨20, "x"⟩] none =
      Except.error (Exn.otherExn "ValueError") := rfl

/-- C8 amended: the worker contains every `grpc.RpcError` — whether raised
by the inbound stream or by a sink during dispatch — classifying it
internally and returning normally; only failures of other exception types
can cross the worker's boundary. -/
theorem worker_contains_rpc_errors
    (logSink stdSink : Int → String → Except Exn Unit)
    (inbound : List LogRecord) (streamEnd : Option Exn)
    (hlog : ∀ l m ex, logSink l m = Except.error ex → ∃ e, ex = Exn.rpc e)
    (hstd : ∀ l m ex, stdSink l m = Except.error ex → ∃ e, ex = Exn.rpc e)
    (hend : ∀ ex, streamEnd = some ex → ∃ e, ex = Exn.rpc e) :
    ∃ emits, logMainWith logSink stdSink inbound streamEnd =
      Except.ok emits := by
  rcases hb : bodyResult logSink stdSink inbound streamEnd with ex | u
  · have hrpc : ∃ e, ex = Exn.rpc e := by
      rw [bodyResult.eq_def] at hb
      rcases hl : loopWith logSink stdSink inbound with ex' | u'
      · rw [hl] at hb
        cases hb
        rcases loopWith_error_source logSink stdSink inbound ex hl with
          ⟨l, m, h⟩ | ⟨l, m, h⟩
        · exact hlog l m ex h
        · exact hstd l m ex h
      · rw [hl] at hb
        rcases streamEnd with _ | ex'
        · cases hb
        · cases hb
          exact hend ex rfl
    rcases hrpc with ⟨e, rfl⟩
    exact ⟨processRpcError e, by simp [logMainWith, hb]⟩
  · exact ⟨[], by simp [logMainWith, hb]⟩

/-- Witness for the amended C8: never-raising sinks and an RPC stream
failure give a normal return. -/
theorem worker_contains_rpc_errors_witness :
    ∃ emits, logMainWith okSink okSink [⟨-1, "m"⟩]
        (some (Exn.rpc ⟨StatusCode.cancelled, ""⟩)) = Except.ok emits :=
  worker_contains_rpc_errors okSink okSink [⟨-1, "m"⟩]
    (some (Exn.rpc ⟨StatusCode.cancelled, ""⟩))
    (fun _ _ _ h => nomatch h)
    (fun _ _ _ h => nomatch h)
    (fun _ h => ⟨⟨StatusCode.cancelled, ""⟩, (Option.some.inj h).symm⟩)

/-- C9: `set_logstream_level(level)` enqueues a request with
`enabled = True` and `loglevel = level`; in particular a set-level call made
after `disable_logs()` enqueues a re-enabling request behind the disabling
one. -/
theorem set_level_enables (s : ControllerState) (level : Int) :
    (setLogstreamLevel s level).queue = s.queue ++ [some ⟨true, level⟩] ∧
    (requestOf (Call.setLevel level)).enabled = true ∧
    (setLogstreamLevel (disableLogs s) level).queue =
      s.queue ++ [some ⟨false, 0⟩, some ⟨true, level⟩] := by
  refine ⟨rfl, rfl, ?_⟩
  simp [setLogstreamLevel, disableLogs]

/-- C10: `disable_logs()` only appends a request with `enabled = False`
(loglevel at its proto default 0) to the queue; the logger's configured
level — the only other piece of controller state it could touch — is left
unchanged. -/
theorem disable_logs_frame (s : ControllerState) :
    (disableLogs s).loggerLevel = s.loggerLevel ∧
    (disableLogs s).queue = s.queue ++ [some ⟨false, 0⟩] :=
  ⟨rfl, rfl⟩
